import Mathlib

/-!
Verification of the GitOps Compliance Engine policy core: a shallow
embedding of the resource/rule data model (src/types.ts), the built-in
rule catalog (src/policies/default-policies.ts), the policy engine
(src/policies/engine.ts), the custom-rule loader/merger
(src/policies/custom-loader.ts) and the pass decision
(src/cli/commands/validate.ts), together with theorems settling the
spec claims about them.

Resource property bags are untyped JSON-like trees in the source
(`Record<string, unknown>` filled by the IaC parsers), so they are
modelled by an inductive `Value` type.  JavaScript dynamic operations
that can throw a TypeError (method calls on a value of the wrong type,
property access on null) are modelled in an `Except EvalErr` monad; all
other operations are total.
-/

namespace GCE

/-- JSON-like runtime value, as produced by the IaC parsers (resource
properties) and by JSON.parse (custom-policy documents).  There is no
function constructor: parsed data never holds a callable. -/
inductive Value where
  | null
  | bool (b : Bool)
  | num (n : Int)
  | str (s : String)
  | arr (elems : List Value)
  | obj (fields : List (String × Value))

/-- JavaScript truthiness of a value. -/
def truthy : Value → Bool
  | .null => false
  | .bool b => b
  | .num n => n != 0
  | .str s => !s.isEmpty
  | .arr _ => true
  | .obj _ => true

/-- Truthiness of a possibly-undefined value (`none` is undefined). -/
def otruthy : Option Value → Bool
  | none => false
  | some v => truthy v

/-- JavaScript `a || b` over possibly-undefined operands: the first
operand when truthy, otherwise the second. -/
def jsOr (a b : Option Value) : Option Value :=
  if otruthy a then a else b

/-- Property access `v[k]` on a value known not to be null/undefined:
a lookup on objects, undefined on every other receiver. -/
def getField (v : Value) (k : String) : Option Value :=
  match v with
  | .obj fields => fields.lookup k
  | _ => none

/-- Evaluation fault: a thrown TypeError. -/
inductive EvalErr where
  | typeError
deriving DecidableEq

/-- Unguarded property access `v.k` where `v` may be null: JavaScript
throws a TypeError on a null receiver. -/
def getFieldE (v : Value) (k : String) : Except EvalErr (Option Value) :=
  match v with
  | .null => .error .typeError
  | .obj fields => .ok (fields.lookup k)
  | _ => .ok none

/-- Optional chaining `o?.k`: undefined when the receiver is
null/undefined, otherwise a plain property access. -/
def chainField (o : Option Value) (k : String) : Option Value :=
  match o with
  | none => none
  | some .null => none
  | some v => getField v k

/-- Whether the character list `p` occurs as a contiguous block of `s`. -/
def sublistAt (p : List Char) : List Char → Bool
  | [] => p.isEmpty
  | c :: tl => p.isPrefixOf (c :: tl) || sublistAt p tl

/-- JavaScript `String.prototype.includes`: substring containment. -/
def jsStrIncludes (s pat : String) : Bool :=
  sublistAt pat.toList s.toList

/-- ASCII case mapping of one character to lower case. -/
def charLower (c : Char) : Char :=
  if 'A' ≤ c ∧ c ≤ 'Z' then Char.ofNat (c.toNat + 32) else c

/-- ASCII case mapping of one character to upper case. -/
def charUpper (c : Char) : Char :=
  if 'a' ≤ c ∧ c ≤ 'z' then Char.ofNat (c.toNat - 32) else c

/-- JavaScript `toLowerCase()` (the strings the engine lowercases are
ASCII). -/
def asciiLower (s : String) : String :=
  String.mk (s.toList.map charLower)

/-- JavaScript `toUpperCase()` (the strings the engine uppercases are
ASCII). -/
def asciiUpper (s : String) : String :=
  String.mk (s.toList.map charUpper)

/-- JavaScript `String.prototype.startsWith`. -/
def jsStartsWith (s pre : String) : Bool :=
  pre.toList.isPrefixOf s.toList

/-- JavaScript `String.prototype.endsWith`. -/
def jsEndsWithStr (s suf : String) : Bool :=
  List.isSuffixOf suf.toList s.toList

/-- JavaScript strict equality `v === s` against a string literal. -/
def jsEqStr (v : Value) (s : String) : Bool :=
  match v with
  | .str t => t == s
  | _ => false

/-- Strict equality `o === s` where `o` may be undefined. -/
def optEqStr (o : Option Value) (s : String) : Bool :=
  match o with
  | some v => jsEqStr v s
  | none => false

/-- JavaScript strict equality `v === n` against a number literal. -/
def jsEqNum (v : Value) (n : Int) : Bool :=
  match v with
  | .num m => m == n
  | _ => false

/-- Strict equality `o === n` where `o` may be undefined. -/
def optEqNum (o : Option Value) (n : Int) : Bool :=
  match o with
  | some v => jsEqNum v n
  | none => false

/-- JavaScript strict equality `v === true`. -/
def jsEqTrue (v : Value) : Bool :=
  match v with
  | .bool b => b
  | _ => false

/-- Strict equality `o === true` where `o` may be undefined. -/
def optEqTrue (o : Option Value) : Bool :=
  match o with
  | some v => jsEqTrue v
  | none => false

/-- Method call `v.toLowerCase()` on a receiver already known truthy or
non-null: only strings carry the method, anything else throws. -/
def jsToLowerE (v : Value) : Except EvalErr String :=
  match v with
  | .str s => .ok (asciiLower s)
  | _ => .error .typeError

/-- Method call `v.includes(needle)` with a string-literal argument:
substring test on strings, strict-equality element test on arrays,
TypeError on any other receiver. -/
def jsIncludesE (v : Value) (needle : String) : Except EvalErr Bool :=
  match v with
  | .str s => .ok (jsStrIncludes s needle)
  | .arr xs => .ok (xs.any (fun x => jsEqStr x needle))
  | _ => .error .typeError

/-- Optional-chained call `o?.includes(needle)`: undefined (falsy) when
the receiver is null/undefined, otherwise the method call. -/
def jsOptIncludesE (o : Option Value) (needle : String) : Except EvalErr Bool :=
  match o with
  | none => .ok false
  | some .null => .ok false
  | some v => jsIncludesE v needle

/-- Method call `v.endsWith(suffix)`: only strings carry the method. -/
def jsEndsWithE (v : Value) (suffix : String) : Except EvalErr Bool :=
  match v with
  | .str s => .ok (jsEndsWithStr s suffix)
  | _ => .error .typeError

/-- Chained test `o?.toLowerCase().includes(needle)` as used on
protocol properties: undefined receiver short-circuits to a falsy
result; a non-string non-null receiver throws. -/
def protoSecureE (o : Option Value) (needle : String) : Except EvalErr Bool :=
  match o with
  | none => .ok false
  | some .null => .ok false
  | some (.str s) => .ok (jsStrIncludes (asciiLower s) needle)
  | some _ => .error .typeError

/-- String conversion used by template literals in violation messages. -/
def jsTemplate : Value → String
  | .null => "null"
  | .bool b => if b then "true" else "false"
  | .num n => toString n
  | .str s => s
  | .arr xs => String.intercalate "," (xs.map (fun v => jsTemplateElem v))
  | .obj _ => "[object Object]"
where
  jsTemplateElem : Value → String
  | .null => ""
  | .bool b => if b then "true" else "false"
  | .num n => toString n
  | .str s => s
  | .arr _ => ""
  | .obj _ => "[object Object]"

/-! Data model (src/types.ts). -/

inductive Severity where
  | error
  | warning
  | info
deriving DecidableEq

inductive PolicyCategory where
  | cost
  | security
  | compliance
  | tagging
  | naming
deriving DecidableEq

structure SourceLocation where
  file : String
  line : Option Int := none
  column : Option Int := none
deriving DecidableEq

/-- Parsed Infrastructure-as-Code resource.  The field named `type` in
the source is called `rtype` here. -/
structure IacResource where
  id : String
  rtype : String
  properties : List (String × Value)
  location : SourceLocation

/-- Denormalized resource reference carried inside a violation. -/
structure ResourceRef where
  id : String
  rtype : String
  location : SourceLocation
deriving DecidableEq

structure PolicyViolation where
  ruleId : String
  ruleName : String
  severity : Severity
  category : PolicyCategory
  message : String
  resource : ResourceRef
  remediation : Option String := none
deriving DecidableEq

structure PolicyMetadata where
  rationale : Option String := none
  references : Option (List String) := none
  frameworks : Option (List String) := none
deriving DecidableEq

/-- A compliance policy rule.  `evaluate` may throw (Except error) the
way the JavaScript predicate may throw a TypeError. -/
structure PolicyRule where
  id : String
  name : String
  description : String
  category : PolicyCategory
  severity : Severity
  enabled : Bool
  evaluate : IacResource → Except EvalErr (Option PolicyViolation)
  metadata : Option PolicyMetadata := none

structure PoliciesConfig where
  enabled : Option (List String) := none
  disabled : Option (List String) := none

structure SeverityConfig where
  failOn : Option Severity := none

structure ExcludeConfig where
  files : Option (List String) := none
  resources : Option (List String) := none

structure ValidationConfig where
  policies : Option PoliciesConfig := none
  severity : Option SeverityConfig := none
  exclude : Option ExcludeConfig := none

/-- Shorthand for the resource reference a rule embeds in a violation. -/
def resRef (r : IacResource) : ResourceRef :=
  { id := r.id, rtype := r.rtype, location := r.location }

/-- Resource property lookup `resource.properties.k` (the top-level
property bag is always an object). -/
def propGet (r : IacResource) (k : String) : Option Value :=
  r.properties.lookup k

/-! Built-in rule catalog (src/policies/default-policies.ts).  Every
evaluate body is transcribed from the corresponding arrow function. -/

/-- Evaluate body of the required-tags rule. -/
def requiredTagsEvaluate (r : IacResource) : Except EvalErr (Option PolicyViolation) :=
  let requiredTags := ["Environment", "Owner", "Project"]
  let tags := propGet r "tags"
  if !otruthy tags then
    .ok (some
      { ruleId := "required-tags", ruleName := "Required Tags",
        severity := .warning, category := .tagging,
        message := "Resource is missing required tags",
        resource := resRef r,
        remediation := some ("Add tags: " ++ String.intercalate ", " requiredTags) })
  else
    let tv := tags.getD .null
    let missingTags := requiredTags.filter (fun tag => !otruthy (getField tv tag))
    if missingTags.length > 0 then
      .ok (some
        { ruleId := "required-tags", ruleName := "Required Tags",
          severity := .warning, category := .tagging,
          message := "Resource is missing tags: " ++ String.intercalate ", " missingTags,
          resource := resRef r,
          remediation := some ("Add missing tags: " ++ String.intercalate ", " missingTags) })
    else
      .ok none

/-- Evaluate body of the no-public-access rule. -/
def noPublicAccessEvaluate (r : IacResource) : Except EvalErr (Option PolicyViolation) :=
  if optEqTrue (propGet r "public") || optEqTrue (propGet r "publicly_accessible") then
    .ok (some
      { ruleId := "no-public-access", ruleName := "No Public Access",
        severity := .error, category := .security,
        message := "Resource is configured for public access",
        resource := resRef r,
        remediation := some "Set public access to false and use VPN or private networking" })
  else
    .ok none

/-- Encryption-indicator test shared verbatim by encryption-at-rest and
the GDPR/HIPAA encryption rules. -/
def hasEncryptionProps (r : IacResource) : Bool :=
  optEqTrue (propGet r "encrypted") ||
  optEqTrue (propGet r "encryption") ||
  optEqTrue (propGet r "encryption_enabled") ||
  (propGet r "server_side_encryption_configuration").isSome ||
  (propGet r "kms_key_id").isSome

/-- Evaluate body of the encryption-at-rest rule. -/
def encryptionAtRestEvaluate (r : IacResource) : Except EvalErr (Option PolicyViolation) :=
  let needsEncryption := ["aws_db_instance", "aws_rds_cluster", "aws_ebs_volume",
    "aws_s3_bucket", "aws_efs_file_system", "aws_dynamodb_table",
    "aws_sqs_queue", "aws_kinesis_stream"]
  if needsEncryption.contains r.rtype && !hasEncryptionProps r then
    .ok (some
      { ruleId := "encryption-at-rest", ruleName := "Encryption at Rest Required",
        severity := .error, category := .security,
        message := "Resource does not have encryption at rest enabled",
        resource := resRef r,
        remediation := some "Enable encryption at rest using KMS or default encryption" })
  else
    .ok none

/-- Loop over Object.entries(props) inside no-hardcoded-secrets. -/
def hardcodedSecretsLoop (r : IacResource) :
    List (String × Value) → Option PolicyViolation
  | [] => none
  | (key, value) :: rest =>
    let sensitiveKeys := ["password", "secret", "api_key", "token", "private_key"]
    let lowerKey := asciiLower key
    if sensitiveKeys.any (fun s => jsStrIncludes lowerKey s) then
      match value with
      | .str sv =>
        if !jsStartsWith sv "var." && !jsStartsWith sv "$\x7b" &&
           !jsStartsWith sv "data." && !jsStrIncludes sv "aws_secretsmanager" &&
           !jsStrIncludes sv "vault" && sv.toList.length > 0 then
          some
            { ruleId := "no-hardcoded-secrets", ruleName := "No Hardcoded Secrets",
              severity := .error, category := .security,
              message := "Potential hardcoded secret detected in property \"" ++ key ++ "\"",
              resource := resRef r,
              remediation := some "Use variables, secrets manager, or vault for sensitive values" }
        else
          hardcodedSecretsLoop r rest
      | _ => hardcodedSecretsLoop r rest
    else
      hardcodedSecretsLoop r rest

/-- Evaluate body of the no-hardcoded-secrets rule. -/
def noHardcodedSecretsEvaluate (r : IacResource) : Except EvalErr (Option PolicyViolation) :=
  .ok (hardcodedSecretsLoop r r.properties)

/-- Loop over ingress rules inside security-group-unrestricted. -/
def sgIngressLoop (r : IacResource) : List Value → Except EvalErr (Option PolicyViolation)
  | [] => .ok none
  | rule :: rest => do
    let cidrBlocks ← getFieldE rule "cidr_blocks"
    let ipv6Cidr ← getFieldE rule "ipv6_cidr_blocks"
    let open0 ← (do
      let c ← jsOptIncludesE cidrBlocks "0.0.0.0/0"
      if c then pure true else jsOptIncludesE ipv6Cidr "::/0")
    if open0 then
      let fromPort ← getFieldE rule "from_port"
      if optEqNum fromPort 80 || optEqNum fromPort 443 then
        sgIngressLoop r rest
      else
        .ok (some
          { ruleId := "security-group-unrestricted",
            ruleName := "No Unrestricted Security Groups",
            severity := .error, category := .security,
            message := "Security group allows unrestricted access (0.0.0.0/0)",
            resource := resRef r,
            remediation := some "Restrict CIDR blocks to specific IP ranges or use security group references" })
    else
      sgIngressLoop r rest

/-- Evaluate body of the security-group-unrestricted rule. -/
def securityGroupEvaluate (r : IacResource) : Except EvalErr (Option PolicyViolation) :=
  if !jsStrIncludes r.rtype "security_group" && !jsStrIncludes r.rtype "SecurityGroup" then
    .ok none
  else
    let ingress := propGet r "ingress"
    let rules : List Value :=
      match ingress with
      | some (.arr xs) => xs
      | some v => if truthy v then [v] else []
      | none => []
    sgIngressLoop r rules

/-- Loop over listener entries inside encryption-in-transit. -/
def listenerLoop (r : IacResource) : List Value → Except EvalErr (Option PolicyViolation)
  | [] => .ok none
  | listener :: rest => do
    let listenerProtocol ← getFieldE listener "protocol"
    match listenerProtocol with
    | none => listenerLoop r rest
    | some .null => listenerLoop r rest
    | some pv => do
      let s ← jsToLowerE pv
      if s == "http" then
        .ok (some
          { ruleId := "encryption-in-transit", ruleName := "Encryption in Transit Required",
            severity := .error, category := .security,
            message := "Listener configured with unencrypted HTTP",
            resource := resRef r,
            remediation := some "Configure listener with HTTPS protocol" })
      else
        listenerLoop r rest

/-- Evaluate body of the encryption-in-transit rule. -/
def encryptionInTransitEvaluate (r : IacResource) : Except EvalErr (Option PolicyViolation) :=
  if jsStrIncludes r.rtype "load_balancer" || jsStrIncludes r.rtype "elb" then
    let protocol := propGet r "protocol"
    let listeners := propGet r "listener"
    let checkListeners : Except EvalErr (Option PolicyViolation) :=
      match listeners with
      | some (.arr ls) => listenerLoop r ls
      | _ => .ok none
    if otruthy protocol then do
      let s ← jsToLowerE (protocol.getD .null)
      if s == "http" then
        .ok (some
          { ruleId := "encryption-in-transit", ruleName := "Encryption in Transit Required",
            severity := .error, category := .security,
            message := "Load balancer uses unencrypted HTTP protocol",
            resource := resRef r,
            remediation := some "Use HTTPS protocol with valid SSL/TLS certificates" })
      else
        checkListeners
    else
      checkListeners
  else
    .ok none

/-- Test actionList.some of iam-wildcard-actions, with the JavaScript
short-circuit: the strict-equality test runs first, then endsWith,
which throws on a non-string element. -/
def actionsWildcard : List Value → Except EvalErr Bool
  | [] => .ok false
  | a :: rest =>
    if jsEqStr a "*" then .ok true
    else do
      let e ← jsEndsWithE a ":*"
      if e then .ok true else actionsWildcard rest

/-- Loop over policy statements inside iam-wildcard-actions. -/
def statementsLoop (r : IacResource) : List Value → Except EvalErr (Option PolicyViolation)
  | [] => .ok none
  | statement :: rest => do
    let actions ← getFieldE statement "Action"
    let actionList : List Value :=
      match actions with
      | some (.arr xs) => xs
      | some v => if truthy v then [v] else []
      | none => []
    let w ← actionsWildcard actionList
    if w then
      .ok (some
        { ruleId := "iam-wildcard-actions", ruleName := "No IAM Wildcard Actions",
          severity := .warning, category := .security,
          message := "IAM policy contains wildcard actions",
          resource := resRef r,
          remediation := some "Use specific IAM actions following least privilege principle" })
    else
      statementsLoop r rest

/-- Evaluate body of the iam-wildcard-actions rule.  JSON.parse is an
external collaborator, passed in as `jsonParse` (`none` models a parse
failure, which the source catches and turns into a null return). -/
def iamWildcardEvaluate (jsonParse : String → Option Value) (r : IacResource) :
    Except EvalErr (Option PolicyViolation) :=
  if !jsStrIncludes r.rtype "iam_" && !jsStrIncludes r.rtype "IAM" then
    .ok none
  else
    let policy := propGet r "policy"
    match policy with
    | some (.str s) =>
      match jsonParse s with
      | none => .ok none
      | some parsed => iamCheckPolicyObj jsonParse r (some parsed)
    | some v =>
      -- typeof v === 'object' holds for null, arrays and objects
      match v with
      | .null => iamCheckPolicyObj jsonParse r (some .null)
      | .arr xs => iamCheckPolicyObj jsonParse r (some (.arr xs))
      | .obj fs => iamCheckPolicyObj jsonParse r (some (.obj fs))
      | _ => iamCheckPolicyObj jsonParse r none
    | none => iamCheckPolicyObj jsonParse r none
where
  iamCheckPolicyObj (_jsonParse : String → Option Value) (r : IacResource) :
      Option Value → Except EvalErr (Option PolicyViolation)
  | policyObj =>
    if otruthy policyObj && otruthy (chainField policyObj "Statement") then
      let stmtVal := (getField (policyObj.getD .null) "Statement").getD .null
      let statements : List Value :=
        match stmtVal with
        | .arr xs => xs
        | v => [v]
      statementsLoop r statements
    else
      .ok none

/-- Naming pattern of the naming-convention rule: `[a-z0-9-]+`. -/
def validNamePattern (s : String) : Bool :=
  !s.isEmpty && s.toList.all (fun c => (decide ('a' ≤ c) && decide (c ≤ 'z')) || c.isDigit || c == '-')

/-- Evaluate body of the naming-convention rule. -/
def namingConventionEvaluate (r : IacResource) : Except EvalErr (Option PolicyViolation) :=
  if !validNamePattern r.id then
    .ok (some
      { ruleId := "naming-convention", ruleName := "Naming Convention",
        severity := .info, category := .naming,
        message := "Resource name \"" ++ r.id ++ "\" does not follow naming convention",
        resource := resRef r,
        remediation := some "Use lowercase letters, numbers, and hyphens only" })
  else
    .ok none

/-- Evaluate body of the cost-large-instance rule. -/
def costLargeInstanceEvaluate (r : IacResource) : Except EvalErr (Option PolicyViolation) :=
  let instanceType := propGet r "instance_type"
  if otruthy instanceType then do
    let v := instanceType.getD .null
    let big ← (do
      let x ← jsIncludesE v "xlarge"
      if x then pure true else jsIncludesE v "metal")
    if big then
      .ok (some
        { ruleId := "cost-large-instance", ruleName := "Large Instance Warning",
          severity := .warning, category := .cost,
          message := "Instance type \"" ++ jsTemplate v ++ "\" may incur high costs",
          resource := resRef r,
          remediation := some "Consider using a smaller instance type or verify this is necessary" })
    else
      .ok none
  else
    .ok none

/-- Evaluate body of the cost-unattached-volumes rule. -/
def costUnattachedVolumesEvaluate (r : IacResource) : Except EvalErr (Option PolicyViolation) :=
  if !jsStrIncludes r.rtype "ebs_volume" && !jsStrIncludes r.rtype "EBS" then
    .ok none
  else
    let attachedInstance := jsOr (propGet r "instance") (propGet r "attached_instance")
    if !otruthy attachedInstance then
      .ok (some
        { ruleId := "cost-unattached-volumes", ruleName := "Unused EBS Volumes",
          severity := .warning, category := .cost,
          message := "EBS volume is not attached to any instance",
          resource := resRef r,
          remediation := some "Attach volume to an instance or delete if no longer needed" })
    else
      .ok none

/-- Evaluate body of the cost-gp2-to-gp3 rule. -/
def costGp2ToGp3Evaluate (r : IacResource) : Except EvalErr (Option PolicyViolation) :=
  if !jsStrIncludes r.rtype "ebs_volume" then
    .ok none
  else
    let volumeType := jsOr (propGet r "type") (propGet r "volume_type")
    if optEqStr volumeType "gp2" then
      .ok (some
        { ruleId := "cost-gp2-to-gp3", ruleName := "GP2 to GP3 Migration",
          severity := .info, category := .cost,
          message := "Consider migrating from gp2 to gp3 for cost savings",
          resource := resRef r,
          remediation := some "GP3 volumes are up to 20% cheaper and offer better performance" })
    else
      .ok none

/-- Evaluate body of the cost-oversized-volume rule. -/
def costOversizedVolumeEvaluate (r : IacResource) : Except EvalErr (Option PolicyViolation) :=
  let size := jsOr (propGet r "size") (propGet r "allocated_storage")
  match size with
  | some (.num n) =>
    if n > 1000 then
      .ok (some
        { ruleId := "cost-oversized-volume", ruleName := "Oversized Volume Warning",
          severity := .warning, category := .cost,
          message := "Volume size " ++ toString n ++ " GB may incur significant costs",
          resource := resRef r,
          remediation := some "Review storage requirements and consider using lifecycle policies" })
    else
      .ok none
  | _ => .ok none

/-- Evaluate body of the cost-multi-az rule. -/
def costMultiAzEvaluate (r : IacResource) : Except EvalErr (Option PolicyViolation) :=
  let multiAz := jsOr (propGet r "multi_az") (propGet r "multi_availability_zone")
  if optEqTrue multiAz then
    .ok (some
      { ruleId := "cost-multi-az", ruleName := "Multi-AZ Cost Warning",
        severity := .info, category := .cost,
        message := "Multi-AZ deployment doubles infrastructure costs",
        resource := resRef r,
        remediation := some "Verify Multi-AZ is required for this environment" })
  else
    .ok none

/-- Evaluate body of the cost-nat-gateway rule. -/
def costNatGatewayEvaluate (r : IacResource) : Except EvalErr (Option PolicyViolation) :=
  if r.rtype == "aws_nat_gateway" then
    .ok (some
      { ruleId := "cost-nat-gateway", ruleName := "NAT Gateway Cost Warning",
        severity := .info, category := .cost,
        message := "NAT Gateways incur significant hourly and data transfer costs",
        resource := resRef r,
        remediation := some "Consider NAT instances for dev/test environments or VPC endpoints" })
  else
    .ok none

/-- Evaluate body of the cost-center-tag rule (disabled by default). -/
def costCenterTagEvaluate (r : IacResource) : Except EvalErr (Option PolicyViolation) :=
  let tags := propGet r "tags"
  if !otruthy tags || !otruthy (getField (tags.getD .null) "CostCenter") then
    .ok (some
      { ruleId := "cost-center-tag", ruleName := "Cost Center Tag Required",
        severity := .warning, category := .tagging,
        message := "Resource is missing CostCenter tag for billing allocation",
        resource := resRef r,
        remediation := some "Add CostCenter tag with appropriate billing code" })
  else
    .ok none

/-- Evaluate body of the expiration-tag rule (disabled by default).
The call env.toLowerCase() throws when the Environment tag holds a
truthy non-string value. -/
def expirationTagEvaluate (r : IacResource) : Except EvalErr (Option PolicyViolation) :=
  let tags := propGet r "tags"
  let env := jsOr (chainField tags "Environment") (chainField tags "environment")
  if otruthy env then do
    let s ← jsToLowerE (env.getD .null)
    if ["dev", "test", "staging", "sandbox"].contains s then
      if !otruthy tags || !otruthy (getField (tags.getD .null) "ExpirationDate") then
        .ok (some
          { ruleId := "expiration-tag", ruleName := "Expiration Date Tag",
            severity := .info, category := .tagging,
            message := "Non-production resource missing ExpirationDate tag",
            resource := resRef r,
            remediation := some "Add ExpirationDate tag (YYYY-MM-DD) for resource cleanup tracking" })
      else
        .ok none
    else
      .ok none
  else
    .ok none

/-- Evaluate body of the backup-tag rule (disabled by default). -/
def backupTagEvaluate (r : IacResource) : Except EvalErr (Option PolicyViolation) :=
  let dataResources := ["aws_db_instance", "aws_rds_cluster", "aws_ebs_volume",
    "aws_efs_file_system", "aws_dynamodb_table"]
  if dataResources.contains r.rtype then
    let tags := propGet r "tags"
    if !otruthy tags || !otruthy (getField (tags.getD .null) "BackupPolicy") then
      .ok (some
        { ruleId := "backup-tag", ruleName := "Backup Policy Tag",
          severity := .warning, category := .tagging,
          message := "Data resource missing BackupPolicy tag",
          resource := resRef r,
          remediation := some "Add BackupPolicy tag (e.g., \"daily\", \"weekly\", \"none\")" })
    else
      .ok none
  else
    .ok none

/-- Logging-indicator test shared verbatim by compliance-logging,
hipaa-audit-logging and pci-logging-monitoring. -/
def hasLoggingProps (r : IacResource) : Bool :=
  (propGet r "logging").isSome ||
  (propGet r "enabled_cloudwatch_logs_exports").isSome ||
  (propGet r "access_logs").isSome ||
  (propGet r "logging_config").isSome

/-- Evaluate body of the compliance-logging rule (disabled by default). -/
def complianceLoggingEvaluate (r : IacResource) : Except EvalErr (Option PolicyViolation) :=
  let needsLogging := ["aws_s3_bucket", "aws_cloudtrail", "aws_db_instance",
    "aws_rds_cluster", "aws_api_gateway", "aws_lb"]
  if needsLogging.contains r.rtype && !hasLoggingProps r then
    .ok (some
      { ruleId := "compliance-logging", ruleName := "Audit Logging Required",
        severity := .error, category := .compliance,
        message := "Resource does not have audit logging enabled",
        resource := resRef r,
        remediation := some "Enable CloudWatch logs or access logging for compliance" })
  else
    .ok none

/-- Evaluate body of the compliance-versioning rule (disabled by default). -/
def complianceVersioningEvaluate (r : IacResource) : Except EvalErr (Option PolicyViolation) :=
  if r.rtype == "aws_s3_bucket" then
    let versioning := propGet r "versioning"
    if !otruthy versioning || !optEqTrue (getField (versioning.getD .null) "enabled") then
      .ok (some
        { ruleId := "compliance-versioning", ruleName := "Versioning Required",
          severity := .warning, category := .compliance,
          message := "S3 bucket does not have versioning enabled",
          resource := resRef r,
          remediation := some "Enable versioning for data protection and compliance" })
    else
      .ok none
  else
    .ok none

/-- Evaluate body of the compliance-mfa-delete rule (disabled by
default).  The chained call env?.toLowerCase() throws when the
Environment tag holds a non-null non-string value. -/
def complianceMfaDeleteEvaluate (r : IacResource) : Except EvalErr (Option PolicyViolation) :=
  if r.rtype == "aws_s3_bucket" then
    let tags := propGet r "tags"
    let env := chainField tags "Environment"
    match env with
    | none => .ok none
    | some .null => .ok none
    | some (.str s) =>
      if asciiLower s == "production" then
        let versioning := propGet r "versioning"
        if !otruthy versioning || !optEqTrue (getField (versioning.getD .null) "mfa_delete") then
          .ok (some
            { ruleId := "compliance-mfa-delete", ruleName := "MFA Delete for S3",
              severity := .info, category := .compliance,
              message := "Production S3 bucket should require MFA for deletion",
              resource := resRef r,
              remediation := some "Enable MFA delete in versioning configuration for production buckets" })
        else
          .ok none
      else
        .ok none
    | some _ => .error .typeError
  else
    .ok none

/-- Tag-based GDPR applicability marker. -/
def gdprApplicable (tags : Option Value) : Bool :=
  optEqStr (chainField tags "DataClassification") "GDPR" ||
  optEqStr (chainField tags "GDPR-Applicable") "true"

/-- Evaluate body of the gdpr-data-residency rule (disabled by default). -/
def gdprDataResidencyEvaluate (r : IacResource) : Except EvalErr (Option PolicyViolation) :=
  let tags := propGet r "tags"
  let region := propGet r "region"
  if gdprApplicable tags then
    let euRegions := ["eu-west-1", "eu-west-2", "eu-west-3", "eu-central-1", "eu-north-1"]
    let regionInEu :=
      match region with
      | some (.str s) => euRegions.contains s
      | _ => false
    if otruthy region && !regionInEu then
      .ok (some
        { ruleId := "gdpr-data-residency", ruleName := "GDPR Data Residency",
          severity := .error, category := .compliance,
          message := "GDPR-applicable data must be stored in EU regions",
          resource := resRef r,
          remediation := some ("Deploy to an EU region: " ++ String.intercalate ", " euRegions) })
    else
      .ok none
  else
    .ok none

/-- Evaluate body of the gdpr-encryption-required rule (disabled by default). -/
def gdprEncryptionRequiredEvaluate (r : IacResource) : Except EvalErr (Option PolicyViolation) :=
  let tags := propGet r "tags"
  if gdprApplicable tags && !hasEncryptionProps r then
    .ok (some
      { ruleId := "gdpr-encryption-required", ruleName := "GDPR Encryption Required",
        severity := .error, category := .compliance,
        message := "GDPR-applicable resources must have encryption enabled",
        resource := resRef r,
        remediation := some "Enable encryption at rest using KMS with customer-managed keys" })
  else
    .ok none

/-- Evaluate body of the gdpr-data-retention rule (disabled by default). -/
def gdprDataRetentionEvaluate (r : IacResource) : Except EvalErr (Option PolicyViolation) :=
  let tags := propGet r "tags"
  if gdprApplicable tags then
    if jsStrIncludes r.rtype "s3_bucket" || jsStrIncludes r.rtype "ebs_volume" ||
       jsStrIncludes r.rtype "db_instance" then
      let hasRetentionPolicy :=
        (propGet r "lifecycle_rule").isSome ||
        (propGet r "lifecycle_policy").isSome ||
        (propGet r "backup_retention_period").isSome ||
        (chainField tags "RetentionDays").isSome
      if !hasRetentionPolicy then
        .ok (some
          { ruleId := "gdpr-data-retention", ruleName := "GDPR Data Retention Policy",
            severity := .warning, category := .compliance,
            message := "GDPR requires defined data retention policies",
            resource := resRef r,
            remediation := some "Add lifecycle policy or RetentionDays tag to define data retention period" })
      else
        .ok none
    else
      .ok none
  else
    .ok none

/-- Tag-based HIPAA applicability marker. -/
def hipaaApplicable (tags : Option Value) : Bool :=
  optEqStr (chainField tags "DataClassification") "PHI" ||
  optEqStr (chainField tags "HIPAA-Applicable") "true"

/-- Evaluate body of the hipaa-encryption-required rule (disabled by default). -/
def hipaaEncryptionRequiredEvaluate (r : IacResource) : Except EvalErr (Option PolicyViolation) :=
  let tags := propGet r "tags"
  if hipaaApplicable tags && !hasEncryptionProps r then
    .ok (some
      { ruleId := "hipaa-encryption-required", ruleName := "HIPAA Encryption Required",
        severity := .error, category := .compliance,
        message := "HIPAA requires encryption of PHI at rest",
        resource := resRef r,
        remediation := some "Enable encryption using FIPS 140-2 validated cryptographic modules" })
  else
    .ok none

/-- Evaluate body of the hipaa-audit-logging rule (disabled by default). -/
def hipaaAuditLoggingEvaluate (r : IacResource) : Except EvalErr (Option PolicyViolation) :=
  let tags := propGet r "tags"
  if hipaaApplicable tags && !hasLoggingProps r then
    .ok (some
      { ruleId := "hipaa-audit-logging", ruleName := "HIPAA Audit Logging",
        severity := .error, category := .compliance,
        message := "HIPAA requires comprehensive audit logging for PHI access",
        resource := resRef r,
        remediation := some "Enable CloudWatch logs and CloudTrail for audit compliance" })
  else
    .ok none

/-- Evaluate body of the hipaa-backup-required rule (disabled by default). -/
def hipaaBackupRequiredEvaluate (r : IacResource) : Except EvalErr (Option PolicyViolation) :=
  let tags := propGet r "tags"
  if hipaaApplicable tags then
    let dataResources := ["aws_db_instance", "aws_rds_cluster", "aws_ebs_volume",
      "aws_efs_file_system"]
    if dataResources.contains r.rtype then
      let hasBackup :=
        (propGet r "backup_retention_period").isSome ||
        (propGet r "backup_window").isSome ||
        (propGet r "backup_policy").isSome
      if !hasBackup then
        .ok (some
          { ruleId := "hipaa-backup-required", ruleName := "HIPAA Backup Required",
            severity := .error, category := .compliance,
            message := "HIPAA requires automated backups for PHI data",
            resource := resRef r,
            remediation := some "Enable automated backups with minimum 7-day retention" })
      else
        .ok none
    else
      .ok none
  else
    .ok none

/-- Tag-based PCI applicability marker. -/
def pciApplicable (tags : Option Value) : Bool :=
  optEqStr (chainField tags "DataClassification") "PCI" ||
  optEqStr (chainField tags "PCI-Applicable") "true"

/-- Evaluate body of the pci-network-segmentation rule (disabled by default). -/
def pciNetworkSegmentationEvaluate (r : IacResource) : Except EvalErr (Option PolicyViolation) :=
  let tags := propGet r "tags"
  if pciApplicable tags then
    let hasSegmentation :=
      (propGet r "vpc_id").isSome ||
      (propGet r "subnet_id").isSome ||
      (propGet r "subnet_ids").isSome
    if !hasSegmentation then
      .ok (some
        { ruleId := "pci-network-segmentation", ruleName := "PCI-DSS Network Segmentation",
          severity := .error, category := .compliance,
          message := "PCI-DSS requires network segmentation for cardholder data",
          resource := resRef r,
          remediation := some "Deploy in dedicated VPC/subnet separate from general infrastructure" })
    else
      .ok none
  else
    .ok none

/-- Loop over listener entries inside pci-encryption-transit. -/
def pciListenerLoop : List Value → Except EvalErr Bool
  | [] => .ok false
  | l :: rest => do
    let p ← getFieldE l "protocol"
    let a ← protoSecureE p "https"
    if a then .ok true
    else do
      let b ← protoSecureE p "tls"
      if b then .ok true else pciListenerLoop rest

/-- Evaluate body of the pci-encryption-transit rule (disabled by default). -/
def pciEncryptionTransitEvaluate (r : IacResource) : Except EvalErr (Option PolicyViolation) :=
  let tags := propGet r "tags"
  if pciApplicable tags then
    if jsStrIncludes r.rtype "load_balancer" || jsStrIncludes r.rtype "api_gateway" then do
      let protocol := propGet r "protocol"
      let listeners := propGet r "listener"
      let hasSecureTransit ← (do
        let a ← protoSecureE protocol "https"
        if a then pure true
        else do
          let b ← protoSecureE protocol "tls"
          if b then pure true
          else
            match listeners with
            | some (.arr ls) => pciListenerLoop ls
            | _ => pure false)
      if !hasSecureTransit then
        .ok (some
          { ruleId := "pci-encryption-transit", ruleName := "PCI-DSS Encryption in Transit",
            severity := .error, category := .compliance,
            message := "PCI-DSS requires TLS 1.2+ for cardholder data transmission",
            resource := resRef r,
            remediation := some "Configure HTTPS/TLS 1.2 or higher with strong cipher suites" })
      else
        .ok none
    else
      .ok none
  else
    .ok none

/-- Evaluate body of the pci-access-control rule (disabled by default). -/
def pciAccessControlEvaluate (r : IacResource) : Except EvalErr (Option PolicyViolation) :=
  let tags := propGet r "tags"
  if pciApplicable tags then
    if optEqTrue (propGet r "public") || optEqTrue (propGet r "publicly_accessible") then
      .ok (some
        { ruleId := "pci-access-control", ruleName := "PCI-DSS Access Control",
          severity := .error, category := .compliance,
          message := "PCI-DSS prohibits public access to cardholder data",
          resource := resRef r,
          remediation := some "Remove public access and implement strict access controls" })
    else
      .ok none
  else
    .ok none

/-- Evaluate body of the pci-logging-monitoring rule (disabled by default). -/
def pciLoggingMonitoringEvaluate (r : IacResource) : Except EvalErr (Option PolicyViolation) :=
  let tags := propGet r "tags"
  if pciApplicable tags && !hasLoggingProps r then
    .ok (some
      { ruleId := "pci-logging-monitoring", ruleName := "PCI-DSS Logging and Monitoring",
        severity := .error, category := .compliance,
        message := "PCI-DSS requires comprehensive logging for cardholder data access",
        resource := resRef r,
        remediation := some "Enable audit logging with minimum 90-day retention" })
  else
    .ok none

/-- Evaluate body of the soc2-change-management rule (disabled by default). -/
def soc2ChangeManagementEvaluate (r : IacResource) : Except EvalErr (Option PolicyViolation) :=
  let tags := propGet r "tags"
  let hasChangeTracking :=
    (chainField tags "ChangeTicket").isSome ||
    (chainField tags "ChangeRequest").isSome ||
    (chainField tags "ManagedBy").isSome
  if !hasChangeTracking then
    .ok (some
      { ruleId := "soc2-change-management", ruleName := "SOC2 Change Management",
        severity := .warning, category := .compliance,
        message := "SOC2 requires change tracking tags for audit trail",
        resource := resRef r,
        remediation := some "Add tags: ChangeTicket, ChangeRequest, or ManagedBy" })
  else
    .ok none

/-- Evaluate body of the soc2-monitoring-alerting rule (disabled by default). -/
def soc2MonitoringAlertingEvaluate (r : IacResource) : Except EvalErr (Option PolicyViolation) :=
  let criticalResources := ["aws_db_instance", "aws_rds_cluster", "aws_lb",
    "aws_api_gateway", "aws_lambda_function"]
  if criticalResources.contains r.rtype then
    let hasMonitoring :=
      (propGet r "monitoring_interval").isSome ||
      (propGet r "enabled_cloudwatch_logs_exports").isSome ||
      (propGet r "monitoring_role_arn").isSome
    if !hasMonitoring then
      .ok (some
        { ruleId := "soc2-monitoring-alerting", ruleName := "SOC2 Monitoring and Alerting",
          severity := .error, category := .compliance,
          message := "SOC2 requires monitoring for critical infrastructure",
          resource := resRef r,
          remediation := some "Enable CloudWatch monitoring and configure alerting" })
    else
      .ok none
  else
    .ok none

/-- Evaluate body of the soc2-data-backup rule (disabled by default). -/
def soc2DataBackupEvaluate (r : IacResource) : Except EvalErr (Option PolicyViolation) :=
  let dataResources := ["aws_db_instance", "aws_rds_cluster", "aws_dynamodb_table",
    "aws_efs_file_system"]
  if dataResources.contains r.rtype then
    let hasBackup :=
      (propGet r "backup_retention_period").isSome ||
      (propGet r "point_in_time_recovery").isSome ||
      (propGet r "backup_window").isSome
    if !hasBackup then
      .ok (some
        { ruleId := "soc2-data-backup", ruleName := "SOC2 Data Backup",
          severity := .error, category := .compliance,
          message := "SOC2 requires backup procedures for data availability",
          resource := resRef r,
          remediation := some "Enable automated backups with appropriate retention period" })
    else
      .ok none
  else
    .ok none

/-- Evaluate body of the soc2-access-logging rule (disabled by default). -/
def soc2AccessLoggingEvaluate (r : IacResource) : Except EvalErr (Option PolicyViolation) :=
  let auditResources := ["aws_s3_bucket", "aws_db_instance", "aws_rds_cluster",
    "aws_api_gateway"]
  if auditResources.contains r.rtype then
    let hasLogging :=
      (propGet r "logging").isSome ||
      (propGet r "enabled_cloudwatch_logs_exports").isSome ||
      (propGet r "access_logs").isSome
    if !hasLogging then
      .ok (some
        { ruleId := "soc2-access-logging", ruleName := "SOC2 Access Logging",
          severity := .error, category := .compliance,
          message := "SOC2 requires access logging for audit trail",
          resource := resRef r,
          remediation := some "Enable access logging to CloudWatch or S3" })
    else
      .ok none
  else
    .ok none

/-- Default compliance policy catalog (src/policies/default-policies.ts),
in source order.  Only required-tags and no-public-access carry a
`metadata` block in the source; every other rule has no metadata field.
JSON.parse, used by iam-wildcard-actions, is passed in as `jsonParse`. -/
def defaultPolicies (jsonParse : String → Option Value) : List PolicyRule :=
  [ { id := "required-tags", name := "Required Tags",
      description := "Ensures all resources have required tags",
      category := .tagging, severity := .warning, enabled := true,
      evaluate := requiredTagsEvaluate,
      metadata := some
        { rationale := some "Resource tagging is essential for cost allocation, resource management, and operational visibility",
          references := some ["https://docs.aws.amazon.com/general/latest/gr/aws_tagging.html",
            "https://www.terraform.io/docs/language/meta-arguments/tags.html"],
          frameworks := some ["AWS Well-Architected", "FinOps", "Cloud Governance"] } },
    { id := "no-public-access", name := "No Public Access",
      description := "Prevents resources from being publicly accessible",
      category := .security, severity := .error, enabled := true,
      evaluate := noPublicAccessEvaluate,
      metadata := some
        { rationale := some "Publicly accessible resources expose your infrastructure to potential attacks and data breaches",
          references := some ["https://docs.aws.amazon.com/vpc/latest/userguide/VPC_Security.html",
            "https://owasp.org/www-project-top-ten/"],
          frameworks := some ["CIS AWS Foundations", "NIST 800-53", "SOC2", "ISO 27001"] } },
    { id := "encryption-at-rest", name := "Encryption at Rest Required",
      description := "Ensures resources have encryption enabled",
      category := .security, severity := .error, enabled := true,
      evaluate := encryptionAtRestEvaluate },
    { id := "no-hardcoded-secrets", name := "No Hardcoded Secrets",
      description := "Detects potential hardcoded secrets in configuration",
      category := .security, severity := .error, enabled := true,
      evaluate := noHardcodedSecretsEvaluate },
    { id := "security-group-unrestricted", name := "No Unrestricted Security Groups",
      description := "Prevents overly permissive security group rules",
      category := .security, severity := .error, enabled := true,
      evaluate := securityGroupEvaluate },
    { id := "encryption-in-transit", name := "Encryption in Transit Required",
      description := "Ensures data is encrypted during transmission",
      category := .security, severity := .error, enabled := true,
      evaluate := encryptionInTransitEvaluate },
    { id := "iam-wildcard-actions", name := "No IAM Wildcard Actions",
      description := "Prevents overly permissive IAM policies",
      category := .security, severity := .warning, enabled := true,
      evaluate := iamWildcardEvaluate jsonParse },
    { id := "naming-convention", name := "Naming Convention",
      description := "Enforces standard naming patterns",
      category := .naming, severity := .info, enabled := true,
      evaluate := namingConventionEvaluate },
    { id := "cost-large-instance", name := "Large Instance Warning",
      description := "Warns about expensive instance types",
      category := .cost, severity := .warning, enabled := true,
      evaluate := costLargeInstanceEvaluate },
    { id := "cost-unattached-volumes", name := "Unused EBS Volumes",
      description := "Detects unattached EBS volumes that incur costs",
      category := .cost, severity := .warning, enabled := true,
      evaluate := costUnattachedVolumesEvaluate },
    { id := "cost-gp2-to-gp3", name := "GP2 to GP3 Migration",
      description := "Suggests migrating GP2 volumes to more cost-effective GP3",
      category := .cost, severity := .info, enabled := true,
      evaluate := costGp2ToGp3Evaluate },
    { id := "cost-oversized-volume", name := "Oversized Volume Warning",
      description := "Warns about very large storage volumes",
      category := .cost, severity := .warning, enabled := true,
      evaluate := costOversizedVolumeEvaluate },
    { id := "cost-multi-az", name := "Multi-AZ Cost Warning",
      description := "Warns about increased costs for Multi-AZ deployments",
      category := .cost, severity := .info, enabled := true,
      evaluate := costMultiAzEvaluate },
    { id := "cost-nat-gateway", name := "NAT Gateway Cost Warning",
      description := "Warns about NAT Gateway costs",
      category := .cost, severity := .info, enabled := true,
      evaluate := costNatGatewayEvaluate },
    { id := "cost-center-tag", name := "Cost Center Tag Required",
      description := "Ensures resources have cost center tags for billing",
      category := .tagging, severity := .warning, enabled := false,
      evaluate := costCenterTagEvaluate },
    { id := "expiration-tag", name := "Expiration Date Tag",
      description := "Ensures temporary resources have expiration dates",
      category := .tagging, severity := .info, enabled := false,
      evaluate := expirationTagEvaluate },
    { id := "backup-tag", name := "Backup Policy Tag",
      description := "Ensures data resources have backup policy tags",
      category := .tagging, severity := .warning, enabled := false,
      evaluate := backupTagEvaluate },
    { id := "compliance-logging", name := "Audit Logging Required",
      description := "Ensures resources have audit logging enabled",
      category := .compliance, severity := .error, enabled := false,
      evaluate := complianceLoggingEvaluate },
    { id := "compliance-versioning", name := "Versioning Required",
      description := "Ensures S3 buckets have versioning enabled",
      category := .compliance, severity := .warning, enabled := false,
      evaluate := complianceVersioningEvaluate },
    { id := "compliance-mfa-delete", name := "MFA Delete for S3",
      description := "Ensures critical S3 buckets require MFA for deletion",
      category := .compliance, severity := .info, enabled := false,
      evaluate := complianceMfaDeleteEvaluate },
    { id := "gdpr-data-residency", name := "GDPR Data Residency",
      description := "Ensures EU data is stored in EU regions for GDPR compliance",
      category := .compliance, severity := .error, enabled := false,
      evaluate := gdprDataResidencyEvaluate },
    { id := "gdpr-encryption-required", name := "GDPR Encryption Required",
      description := "Ensures personal data is encrypted per GDPR requirements",
      category := .compliance, severity := .error, enabled := false,
      evaluate := gdprEncryptionRequiredEvaluate },
    { id := "gdpr-data-retention", name := "GDPR Data Retention Policy",
      description := "Ensures resources have data retention policies for GDPR compliance",
      category := .compliance, severity := .warning, enabled := false,
      evaluate := gdprDataRetentionEvaluate },
    { id := "hipaa-encryption-required", name := "HIPAA Encryption Required",
      description := "Ensures PHI data is encrypted per HIPAA requirements",
      category := .compliance, severity := .error, enabled := false,
      evaluate := hipaaEncryptionRequiredEvaluate },
    { id := "hipaa-audit-logging", name := "HIPAA Audit Logging",
      description := "Ensures comprehensive audit logging for HIPAA compliance",
      category := .compliance, severity := .error, enabled := false,
      evaluate := hipaaAuditLoggingEvaluate },
    { id := "hipaa-backup-required", name := "HIPAA Backup Required",
      description := "Ensures PHI data has automated backups enabled",
      category := .compliance, severity := .error, enabled := false,
      evaluate := hipaaBackupRequiredEvaluate },
    { id := "pci-network-segmentation", name := "PCI-DSS Network Segmentation",
      description := "Ensures cardholder data environment is properly segmented",
      category := .compliance, severity := .error, enabled := false,
      evaluate := pciNetworkSegmentationEvaluate },
    { id := "pci-encryption-transit", name := "PCI-DSS Encryption in Transit",
      description := "Ensures cardholder data is encrypted during transmission",
      category := .compliance, severity := .error, enabled := false,
      evaluate := pciEncryptionTransitEvaluate },
    { id := "pci-access-control", name := "PCI-DSS Access Control",
      description := "Ensures strict access controls for cardholder data",
      category := .compliance, severity := .error, enabled := false,
      evaluate := pciAccessControlEvaluate },
    { id := "pci-logging-monitoring", name := "PCI-DSS Logging and Monitoring",
      description := "Ensures comprehensive logging for PCI compliance",
      category := .compliance, severity := .error, enabled := false,
      evaluate := pciLoggingMonitoringEvaluate },
    { id := "soc2-change-management", name := "SOC2 Change Management",
      description := "Ensures resources have proper change tracking",
      category := .compliance, severity := .warning, enabled := false,
      evaluate := soc2ChangeManagementEvaluate },
    { id := "soc2-monitoring-alerting", name := "SOC2 Monitoring and Alerting",
      description := "Ensures critical resources have monitoring enabled",
      category := .compliance, severity := .error, enabled := false,
      evaluate := soc2MonitoringAlertingEvaluate },
    { id := "soc2-data-backup", name := "SOC2 Data Backup",
      description := "Ensures data resources have backup procedures",
      category := .compliance, severity := .error, enabled := false,
      evaluate := soc2DataBackupEvaluate },
    { id := "soc2-access-logging", name := "SOC2 Access Logging",
      description := "Ensures access to resources is logged for audit",
      category := .compliance, severity := .error, enabled := false,
      evaluate := soc2AccessLoggingEvaluate } ]

/-! Custom rule merge (src/policies/custom-loader.ts, mergePolicies). -/

/-- Index of the first list entry satisfying the predicate
(Array.prototype.findIndex, with none for -1). -/
def findIndex (p : PolicyRule → Bool) : List PolicyRule → Option Nat
  | [] => none
  | x :: xs => if p x then some 0 else (findIndex p xs).map (fun i => i + 1)

/-- One iteration of the merge loop.  When the custom id is a known
default id the first entry with that id is replaced in place; the
unreachable none branch (a JavaScript assignment at index -1, which
leaves the array elements unchanged) keeps the list as is. -/
def mergeStep (defaultIds : List String) (merged : List PolicyRule) (customPolicy : PolicyRule) :
    List PolicyRule :=
  if defaultIds.contains customPolicy.id then
    match findIndex (fun p => p.id == customPolicy.id) merged with
    | some i => merged.set i customPolicy
    | none => merged
  else
    merged ++ [customPolicy]

/-- Merge custom policies with default policies. -/
def mergePolicies (defaults customPolicies : List PolicyRule) : List PolicyRule :=
  let defaultIds := defaults.map (fun p => p.id)
  customPolicies.foldl (mergeStep defaultIds) defaults

/-! Policy engine (src/policies/engine.ts). -/

/-- Uppercased filter list stored by setFrameworkFilter. -/
def setFrameworkFilter (frameworks : List String) : List String :=
  frameworks.map asciiUpper

/-- Framework-filter predicate inside loadPolicies: a rule is retained
iff it has a non-empty frameworks list and one of its entries,
upper-cased, contains some (already upper-cased) filter token as a
substring. -/
def frameworkKeep (frameworkFilter : List String) (p : PolicyRule) : Bool :=
  match p.metadata with
  | none => false
  | some m =>
    match m.frameworks with
    | none => false
    | some fws =>
      if fws.length == 0 then false
      else fws.any (fun f => frameworkFilter.any (fun filter => jsStrIncludes (asciiUpper f) filter))

/-- Merged catalog: custom policies over the defaults when any were
loaded, otherwise the defaults (the expression repeated by loadPolicies
and getAvailableFrameworks). -/
def mergedCatalog (defaults customPoliciesLoaded : List PolicyRule) : List PolicyRule :=
  if customPoliciesLoaded.length > 0 then mergePolicies defaults customPoliciesLoaded
  else defaults

/-- Load and configure policies: merge custom rules over the defaults,
apply the framework filter, then the enabled allow-list, then the
disabled deny-list. -/
def loadPolicies (defaults customPoliciesLoaded : List PolicyRule)
    (frameworkFilter : Option (List String)) (config : ValidationConfig) :
    List PolicyRule :=
  let policies := mergedCatalog defaults customPoliciesLoaded
  let policies :=
    match frameworkFilter with
    | some ff => if ff.length > 0 then policies.filter (frameworkKeep ff) else policies
    | none => policies
  let policies :=
    match config.policies.bind (fun pc => pc.enabled) with
    | some enabled => policies.filter (fun p => enabled.contains p.id)
    | none => policies
  let policies :=
    match config.policies.bind (fun pc => pc.disabled) with
    | some disabled => policies.filter (fun p => !disabled.contains p.id)
    | none => policies
  policies

/-- Exclusion predicate.  Glob matching is an external collaborator
(the minimatch library): `matchBaseGlob pattern s` models
minimatch(s, pattern, \x7bmatchBase: true\x7d) and `matchGlob pattern s`
models minimatch(s, pattern). -/
def shouldExcludeResource (matchBaseGlob matchGlob : String → String → Bool)
    (config : ValidationConfig) (resource : IacResource) : Bool :=
  match config.exclude with
  | none => false
  | some excludePatterns =>
    let fileHit :=
      match excludePatterns.files with
      | some files => files.length > 0 && files.any (fun pattern => matchBaseGlob pattern resource.location.file)
      | none => false
    let resourceHit :=
      match excludePatterns.resources with
      | some pats => pats.length > 0 && pats.any (fun pattern => matchGlob pattern resource.rtype || matchGlob pattern resource.id)
      | none => false
    fileHit || resourceHit

/-- Inner loop of validateResources over the resolved policy list for
one resource, accumulating violations; a thrown evaluation error
propagates. -/
def runPolicies (policies : List PolicyRule) (resource : IacResource)
    (violations : List PolicyViolation) : Except EvalErr (List PolicyViolation) :=
  match policies with
  | [] => .ok violations
  | policy :: rest =>
    if !policy.enabled then runPolicies rest resource violations
    else
      match policy.evaluate resource with
      | .error e => .error e
      | .ok (some violation) => runPolicies rest resource (violations ++ [violation])
      | .ok none => runPolicies rest resource violations

/-- Outer loop of validateResources over the resources. -/
def validateLoop (matchBaseGlob matchGlob : String → String → Bool)
    (config : ValidationConfig) (policies : List PolicyRule)
    (violations : List PolicyViolation) :
    List IacResource → Except EvalErr (List PolicyViolation)
  | [] => .ok violations
  | resource :: rest =>
    if shouldExcludeResource matchBaseGlob matchGlob config resource then
      validateLoop matchBaseGlob matchGlob config policies violations rest
    else
      match runPolicies policies resource violations with
      | .error e => .error e
      | .ok violations2 => validateLoop matchBaseGlob matchGlob config policies violations2 rest

/-- Validate a list of resources against the resolved policies. -/
def validateResources (matchBaseGlob matchGlob : String → String → Bool)
    (config : ValidationConfig) (policies : List PolicyRule)
    (resources : List IacResource) : Except EvalErr (List PolicyViolation) :=
  validateLoop matchBaseGlob matchGlob config policies [] resources

/-- Set-insertion fold modelling the Set<string> accumulation inside
getAvailableFrameworks (insertion order, duplicates dropped). -/
def setAddAll (acc : List String) (xs : List String) : List String :=
  xs.foldl (fun a f => if a.contains f then a else a ++ [f]) acc

/-- Lexicographic comparison of character lists by code unit, the
default JavaScript Array.sort() string order. -/
def charListLe : List Char → List Char → Bool
  | [], _ => true
  | _ :: _, [] => false
  | a :: as, b :: bs =>
    if a.toNat < b.toNat then true
    else if b.toNat < a.toNat then false
    else charListLe as bs

/-- Insertion sort by the default JavaScript string order. -/
def sortStrings (xs : List String) : List String :=
  xs.foldr insertStr []
where
  insertStr (x : String) : List String → List String
  | [] => [x]
  | y :: ys => if charListLe x.toList y.toList then x :: y :: ys else y :: insertStr x ys

/-- Sorted, deduplicated union of metadata.frameworks across the merged
catalog. -/
def getAvailableFrameworks (defaults customPoliciesLoaded : List PolicyRule) : List String :=
  let allPolicies := mergedCatalog defaults customPoliciesLoaded
  let frameworks := allPolicies.foldl
    (fun acc policy =>
      match policy.metadata with
      | some m =>
        match m.frameworks with
        | some fws => setAddAll acc fws
        | none => acc
      | none => acc)
    []
  sortStrings frameworks

/-! Pass decision (src/cli/commands/validate.ts, shouldPass).  The
switch scrutinee arrives from an unchecked CLI cast, so it is modelled
as a raw string; the default branch returns false. -/

/-- Violation totals by severity. -/
structure SeverityTotals where
  error : Nat
  warning : Nat
  info : Nat
deriving DecidableEq

/-- Pass decision against the fail threshold. -/
def shouldPass (violations : SeverityTotals) (failOn : String) : Bool :=
  match failOn with
  | "error" => violations.error == 0
  | "warning" => violations.error == 0 && violations.warning == 0
  | "info" => violations.error == 0 && violations.warning == 0 && violations.info == 0
  | _ => false

/-! Custom policy loading from JSON documents
(src/policies/custom-loader.ts, loadJSONPolicies and
validatePolicyStructure).  The input here is the value produced by
JSON.parse on the file content: JSON.parse can never produce a
function, which is what decides claim C9. -/

structure ConfigError where
  message : String
  path : String
deriving DecidableEq

/-- JavaScript typeof on a parsed JSON value (note typeof null is the
string object, and a parsed value is never a function or undefined). -/
def jsTypeof : Value → String
  | .null => "object"
  | .bool _ => "boolean"
  | .num _ => "number"
  | .str _ => "string"
  | .arr _ => "object"
  | .obj _ => "object"

/-- Typeof of a possibly-undefined value. -/
def jsTypeofOpt : Option Value → String
  | none => "undefined"
  | some v => jsTypeof v

/-- JavaScript `k in v` for the non-numeric required-field names: key
presence on objects, false on every other parsed value. -/
def hasField (v : Value) (k : String) : Bool :=
  match v with
  | .obj fields => fields.any (fun kv => kv.fst == k)
  | _ => false

/-- First missing required field, scanning in source order. -/
def firstMissingField (p : Value) : List String → Option String
  | [] => none
  | field :: rest => if !hasField p field then some field else firstMissingField p rest

/-- Structural validation of one candidate policy. -/
def validatePolicyStructure (policy : Value) (filePath : String) : Except ConfigError Unit :=
  let isNull := match policy with | .null => true | _ => false
  if jsTypeof policy != "object" || isNull then
    .error { message := "Each policy must be an object", path := filePath }
  else
    let requiredFields := ["id", "name", "description", "category", "severity", "evaluate"]
    match firstMissingField policy requiredFields with
    | some field =>
      .error { message := "Policy missing required field: " ++ field, path := filePath }
    | none =>
      if jsTypeofOpt (getField policy "id") != "string" then
        .error { message := "Policy id must be a string, got " ++ jsTypeofOpt (getField policy "id"), path := filePath }
      else if jsTypeofOpt (getField policy "name") != "string" then
        .error { message := "Policy name must be a string, got " ++ jsTypeofOpt (getField policy "name"), path := filePath }
      else if jsTypeofOpt (getField policy "evaluate") != "function" then
        .error { message := "Policy evaluate must be a function, got " ++ jsTypeofOpt (getField policy "evaluate"), path := filePath }
      else
        let validSeverities := ["error", "warning", "info"]
        if !(match getField policy "severity" with
             | some (.str s) => validSeverities.contains s
             | _ => false) then
          .error { message := "Policy severity must be one of: " ++ String.intercalate ", " validSeverities, path := filePath }
        else
          let validCategories := ["cost", "security", "compliance", "tagging", "naming"]
          if !(match getField policy "category" with
               | some (.str s) => validCategories.contains s
               | _ => false) then
            .error { message := "Policy category must be one of: " ++ String.intercalate ", " validCategories, path := filePath }
          else
            .ok ()

/-- Validation loop over the candidate policies, first error wins. -/
def validateAllPolicies (policies : List Value) (filePath : String) : Except ConfigError Unit :=
  match policies with
  | [] => .ok ()
  | policy :: rest => do
    validatePolicyStructure policy filePath
    validateAllPolicies rest filePath

/-- Load policies from a parsed JSON document.  Error branches for a
null document or a non-iterable policies value model the TypeError the
source throws there, wrapped into a ConfigError by loadCustomPolicies;
a non-empty string iterates per character, so its first candidate
already fails the object check. -/
def loadJSONPolicies (parsed : Value) (filePath : String) : Except ConfigError (List Value) :=
  let isArr := match parsed with | .arr _ => true | _ => false
  let isNull := match parsed with | .null => true | _ => false
  if !isArr && isNull then
    .error { message := "Failed to load custom policies: TypeError", path := filePath }
  else if !isArr && !otruthy (getField parsed "policies") then
    .error { message := "JSON must contain an array of policies or a \"policies\" key", path := filePath }
  else
    let policiesVal := if isArr then parsed else (getField parsed "policies").getD .null
    match policiesVal with
    | .arr policies => do
      validateAllPolicies policies filePath
      .ok policies
    | .str _ =>
      .error { message := "Each policy must be an object", path := filePath }
    | _ =>
      .error { message := "Failed to load custom policies: TypeError", path := filePath }

/-! Concrete fixtures used by the theorems. -/

/-- JSON.parse stand-in that never succeeds; the inputs below never
reach a parse, so any function would do. -/
def alwaysNone : String → Option Value := fun _ => none

/-- Trivial glob matcher; the configurations below have no exclude
patterns, so any matcher would do. -/
def noMatch : String → String → Bool := fun _ _ => false

/-- Resource of spec scenario 3: a publicly accessible database with
all the required tags. -/
def scenario3Resource : IacResource :=
  { id := "database", rtype := "aws_db_instance",
    properties := [("publicly_accessible", .bool true),
      ("tags", .obj [("Environment", .str "production"), ("Owner", .str "platform-team"),
        ("Project", .str "main-app")])],
    location := { file := "test.tf", line := some 1 } }

/-- Validation run of scenario 3 under the default catalog: no config,
no custom rules, no framework filter. -/
def scenario3Run : Except EvalErr (List PolicyViolation) :=
  validateResources noMatch noMatch {}
    (loadPolicies (defaultPolicies alwaysNone) [] none {}) [scenario3Resource]

/-- An unencrypted database tagged as holding PHI. -/
def phiResource : IacResource :=
  { id := "patient-db", rtype := "aws_db_instance",
    properties := [("tags", .obj [("DataClassification", .str "PHI")])],
    location := { file := "main.tf", line := some 1 } }

/-- Configuration whose policies.enabled allow-list names the
disabled-by-default rule hipaa-encryption-required. -/
def cfgEnabledHipaa : ValidationConfig :=
  { policies := some { enabled := some ["hipaa-encryption-required"] } }

/-- An IAM policy resource whose Statement has a number inside its
Action list. -/
def badActionResource : IacResource :=
  { id := "overly-permissive-policy", rtype := "aws_iam_policy",
    properties := [("policy", .obj [("Statement",
      .arr [.obj [("Effect", .str "Allow"), ("Action", .arr [.num 42])]])])],
    location := { file := "main.tf", line := some 1 } }

/-- A resource whose Environment tag holds a truthy non-string. -/
def badEnvResource : IacResource :=
  { id := "tmp-instance", rtype := "aws_instance",
    properties := [("tags", .obj [("Environment", .num 5)])],
    location := { file := "main.tf", line := some 1 } }

/-- Parsed content of a declarative JSON policy document: one rule with
all required fields, the category/severity enums valid, and evaluate
holding the only thing JSON can hold there, a non-function. -/
def jsonPolicyDoc : Value :=
  .arr [.obj [("id", .str "custom-doc-rule"), ("name", .str "Doc Rule"),
    ("description", .str "metadata-only rule"), ("category", .str "security"),
    ("severity", .str "error"), ("evaluate", .str "resource => null")]]

/-- Ids of the framework-specific built-in rules (GDPR, HIPAA, PCI-DSS
and SOC2 families). -/
def frameworkRuleIds : List String :=
  ["gdpr-data-residency", "gdpr-encryption-required", "gdpr-data-retention",
   "hipaa-encryption-required", "hipaa-audit-logging", "hipaa-backup-required",
   "pci-network-segmentation", "pci-encryption-transit", "pci-access-control",
   "pci-logging-monitoring", "soc2-change-management", "soc2-monitoring-alerting",
   "soc2-data-backup", "soc2-access-logging"]

/-- Spec-side statement of the framework filtering predicate, written
from the claim: the rule has a present, non-empty metadata.frameworks
list, and at least one entry, upper-cased, contains the upper-cased
form of at least one filter token as a substring. -/
def specFrameworkMatch (F : List String) (R : PolicyRule) : Prop :=
  ∃ m fws, R.metadata = some m ∧ m.frameworks = some fws ∧ fws ≠ [] ∧
    ∃ f ∈ fws, ∃ t ∈ F, jsStrIncludes (asciiUpper f) (asciiUpper t) = true

/-- A custom rule carrying PCI-DSS framework metadata. -/
def customPciRule : PolicyRule :=
  { id := "custom-pci", name := "Custom PCI Rule", description := "organization PCI rule",
    category := .compliance, severity := .error, enabled := true,
    evaluate := fun _ => .ok none,
    metadata := some { frameworks := some ["PCI-DSS"] } }

/-- Sample built-in pair for the merge witnesses. -/
def sampleRuleA : PolicyRule :=
  { id := "rule-a", name := "Rule A", description := "first sample rule",
    category := .cost, severity := .info, enabled := true,
    evaluate := fun _ => .ok none }

/-- Second sample built-in. -/
def sampleRuleB : PolicyRule :=
  { id := "rule-b", name := "Rule B", description := "second sample rule",
    category := .security, severity := .error, enabled := true,
    evaluate := fun _ => .ok none }

/-- Custom override sharing the id of sampleRuleB. -/
def overrideRuleB : PolicyRule :=
  { id := "rule-b", name := "Rule B Override", description := "replacement rule",
    category := .security, severity := .warning, enabled := false,
    evaluate := fun _ => .ok none }

/-- Violation emitted by the first duplicated custom rule. -/
def dupViolation1 : PolicyViolation :=
  { ruleId := "custom-dup", ruleName := "Dup Rule 1", severity := .warning,
    category := .cost, message := "first duplicate fired",
    resource := { id := "res", rtype := "aws_instance", location := { file := "main.tf" } } }

/-- Violation emitted by the second duplicated custom rule. -/
def dupViolation2 : PolicyViolation :=
  { ruleId := "custom-dup", ruleName := "Dup Rule 2", severity := .warning,
    category := .cost, message := "second duplicate fired",
    resource := { id := "res", rtype := "aws_instance", location := { file := "main.tf" } } }

/-- First custom rule of a duplicated-id pair. -/
def dupRule1 : PolicyRule :=
  { id := "custom-dup", name := "Dup Rule 1", description := "always fires",
    category := .cost, severity := .warning, enabled := true,
    evaluate := fun _ => .ok (some dupViolation1) }

/-- Second custom rule with the same id. -/
def dupRule2 : PolicyRule :=
  { id := "custom-dup", name := "Dup Rule 2", description := "also always fires",
    category := .cost, severity := .warning, enabled := true,
    evaluate := fun _ => .ok (some dupViolation2) }

/-- Resource the duplicated rules run against. -/
def dupResource : IacResource :=
  { id := "res", rtype := "aws_instance", properties := [],
    location := { file := "main.tf" } }

/-! Theorems settling the claims. -/

/-- C2: with policies.enabled = [hipaa-encryption-required], the
resolved rule list retains exactly that rule, still carrying its
enabled = false flag; its evaluate does return a violation on a
PHI-tagged unencrypted database, yet validateResources skips it
because of the enabled check, producing no violation at all.  The
claim (and the repository docs, which enable hipaa rules through this
allow-list) say the rule should run unconditionally once allow-listed. -/
theorem enabled_allowlist_does_not_run_disabled_rule :
    (loadPolicies (defaultPolicies alwaysNone) [] none cfgEnabledHipaa).map
        (fun p => (p.id, p.enabled)) = [("hipaa-encryption-required", false)] ∧
    (hipaaEncryptionRequiredEvaluate phiResource).map (fun o => o.map (fun v => v.ruleId)) =
      .ok (some "hipaa-encryption-required") ∧
    validateResources noMatch noMatch cfgEnabledHipaa
      (loadPolicies (defaultPolicies alwaysNone) [] none cfgEnabledHipaa) [phiResource] = .ok [] :=
  ⟨rfl, rfl, rfl⟩

/-- C6 counterexample: scenario 3 does not return exactly one
violation — the run returns two, the second one from
encryption-at-rest, whose indicator check finds no encryption property
on the resource. -/
theorem scenario3_not_single_violation :
    (∀ v, scenario3Run ≠ .ok [v]) ∧
    scenario3Run.map (fun vs => vs.map (fun v => v.ruleId)) =
      .ok ["no-public-access", "encryption-at-rest"] := by
  have hrun : scenario3Run.map (fun vs => vs.map (fun v => v.ruleId)) =
      .ok ["no-public-access", "encryption-at-rest"] := by rfl
  refine ⟨?_, hrun⟩
  intro v h
  rw [h] at hrun
  simp [Except.map] at hrun

/-- C6 amended: scenario 3 returns exactly two violations, in catalog
order: no-public-access with severity error, then encryption-at-rest
with severity error (the resource carries no encryption indicator, so
the encryption rule also fires). -/
theorem scenario3_two_violations :
    scenario3Run.map (fun vs => vs.map (fun v => (v.ruleId, v.severity))) =
      .ok [("no-public-access", Severity.error), ("encryption-at-rest", Severity.error)] := by
  rfl

/-- C7: every framework-specific built-in rule (the GDPR, HIPAA,
PCI-DSS and SOC2 families) has enabled = false, but none of them
carries any metadata at all — so none has the non-empty
metadata.frameworks list the claim (and the repository test suite)
requires, and getAvailableFrameworks on the default catalog omits
GDPR, HIPAA and PCI-DSS. -/
theorem framework_rules_lack_framework_metadata :
    ((defaultPolicies alwaysNone).filter (fun p => frameworkRuleIds.contains p.id)).map
        (fun p => (p.id, p.enabled, p.metadata.isNone)) =
      frameworkRuleIds.map (fun i => (i, false, true)) ∧
    getAvailableFrameworks (defaultPolicies alwaysNone) [] =
      ["AWS Well-Architected", "CIS AWS Foundations", "Cloud Governance", "FinOps",
       "ISO 27001", "NIST 800-53", "SOC2"] ∧
    ("HIPAA" ∈ getAvailableFrameworks (defaultPolicies alwaysNone) [] ↔ False) := by
  refine ⟨rfl, rfl, ?_⟩
  simp only [iff_false]
  intro h
  have : getAvailableFrameworks (defaultPolicies alwaysNone) [] =
      ["AWS Well-Architected", "CIS AWS Foundations", "Cloud Governance", "FinOps",
       "ISO 27001", "NIST 800-53", "SOC2"] := rfl
  rw [this] at h
  simp at h

/-- C8: built-in evaluate bodies are not total.  iam-wildcard-actions
throws a TypeError (endsWith called on a number) when an Action list
holds a non-string, and expiration-tag throws (toLowerCase called on a
number) when the Environment tag holds a truthy non-string, instead of
treating the mismatched values as absent. -/
theorem builtin_evaluate_raises_on_type_mismatch :
    iamWildcardEvaluate alwaysNone badActionResource = .error .typeError ∧
    expirationTagEvaluate badEnvResource = .error .typeError :=
  ⟨rfl, rfl⟩

/-- C9: a declarative JSON policy document whose single rule has every
required field and valid enum values is rejected by structural
validation, because JSON.parse can never produce a function and
validatePolicyStructure demands a function-typed evaluate. -/
theorem json_policy_document_rejected :
    loadJSONPolicies jsonPolicyDoc "policies.json" =
      .error { message := "Policy evaluate must be a function, got string",
               path := "policies.json" } :=
  rfl

/-- C5: the three-tier truth table of shouldPass, and the fail-closed
default on any other failOn string. -/
theorem shouldPass_truth_table (v : SeverityTotals) :
    (shouldPass v "error" = true ↔ v.error = 0) ∧
    (shouldPass v "warning" = true ↔ v.error = 0 ∧ v.warning = 0) ∧
    (shouldPass v "info" = true ↔ v.error = 0 ∧ v.warning = 0 ∧ v.info = 0) ∧
    (∀ s : String, s ≠ "error" → s ≠ "warning" → s ≠ "info" → shouldPass v s = false) := by
  refine ⟨?_, ?_, ?_, ?_⟩
  · show (v.error == 0) = true ↔ v.error = 0
    simp
  · show (v.error == 0 && v.warning == 0) = true ↔ v.error = 0 ∧ v.warning = 0
    simp
  · show (v.error == 0 && v.warning == 0 && v.info == 0) = true ↔
      v.error = 0 ∧ v.warning = 0 ∧ v.info = 0
    simp [and_assoc]
  · intro s h1 h2 h3
    simp [shouldPass, h1, h2, h3]

/-- Witness for C5 at a concrete unrecognized threshold. -/
theorem shouldPass_truth_table_witness :
    shouldPass { error := 0, warning := 2, info := 3 } "fatal" = false :=
  (shouldPass_truth_table { error := 0, warning := 2, info := 3 }).2.2.2 "fatal"
    (by decide) (by decide) (by decide)

/-- Validation skips excluded resources: dropping them from the input
up front leaves the run unchanged. -/
theorem validateLoop_filter_excluded (mb mg : String → String → Bool)
    (cfg : ValidationConfig) (pols : List PolicyRule) :
    ∀ (rs : List IacResource) (acc : List PolicyViolation),
      validateLoop mb mg cfg pols acc rs =
        validateLoop mb mg cfg pols acc
          (rs.filter (fun x => !shouldExcludeResource mb mg cfg x)) := by
  intro rs
  induction rs with
  | nil => intro acc; rfl
  | cons r rest ih =>
    intro acc
    by_cases h : shouldExcludeResource mb mg cfg r = true
    · simp only [validateLoop, h, if_true, List.filter_cons, Bool.not_true, if_false,
        Bool.not_eq_true]
      exact ih acc
    · rw [Bool.not_eq_true] at h
      simp only [validateLoop, h, List.filter_cons, Bool.not_false, if_true, if_false]
      cases runPolicies pols r acc with
      | error e => rfl
      | ok acc2 => exact ih acc2

/-- C4: a resource is excluded iff some exclude.files pattern matches
its file (base-name matching), or some exclude.resources pattern
matches its type or its id; no exclude config means never excluded;
and excluded resources contribute nothing to validateResources. -/
theorem exclusion_predicate_and_idempotence
    (matchBaseGlob matchGlob : String → String → Bool) (config : ValidationConfig)
    (policies : List PolicyRule) (resources : List IacResource) (r : IacResource) :
    (shouldExcludeResource matchBaseGlob matchGlob config r = true ↔
      ∃ ex, config.exclude = some ex ∧
        ((∃ fs, ex.files = some fs ∧ ∃ pat ∈ fs, matchBaseGlob pat r.location.file = true) ∨
         (∃ ps, ex.resources = some ps ∧ ∃ pat ∈ ps,
            (matchGlob pat r.rtype = true ∨ matchGlob pat r.id = true)))) ∧
    (config.exclude = none → shouldExcludeResource matchBaseGlob matchGlob config r = false) ∧
    validateResources matchBaseGlob matchGlob config policies resources =
      validateResources matchBaseGlob matchGlob config policies
        (resources.filter (fun x => !shouldExcludeResource matchBaseGlob matchGlob config x)) := by
  refine ⟨?_, ?_, ?_⟩
  · unfold shouldExcludeResource
    cases hex : config.exclude with
    | none => simp
    | some ex =>
      simp only [Option.some.injEq]
      constructor
      · intro h
        refine ⟨ex, rfl, ?_⟩
        rw [Bool.or_eq_true] at h
        rcases h with hfile | hres
        · left
          cases hfs : ex.files with
          | none => rw [hfs] at hfile; exact absurd hfile (by simp)
          | some fs =>
            rw [hfs] at hfile
            simp only [Bool.and_eq_true, List.any_eq_true] at hfile
            exact ⟨fs, rfl, hfile.2⟩
        · right
          cases hps : ex.resources with
          | none => rw [hps] at hres; exact absurd hres (by simp)
          | some ps =>
            rw [hps] at hres
            simp only [Bool.and_eq_true, List.any_eq_true] at hres
            obtain ⟨pat, hpat, hm⟩ := hres.2
            rw [Bool.or_eq_true] at hm
            exact ⟨ps, rfl, pat, hpat, hm⟩
      · rintro ⟨ex2, hex2, hcase⟩
        cases hex2
        rw [Bool.or_eq_true]
        rcases hcase with ⟨fs, hfs, pat, hpat, hm⟩ | ⟨ps, hps, pat, hpat, hm⟩
        · left
          rw [hfs]
          simp only [Bool.and_eq_true, List.any_eq_true]
          exact ⟨by simpa using List.length_pos_of_mem hpat, pat, hpat, hm⟩
        · right
          rw [hps]
          simp only [Bool.and_eq_true, List.any_eq_true]
          refine ⟨by simpa using List.length_pos_of_mem hpat, pat, hpat, ?_⟩
          rw [Bool.or_eq_true]
          exact hm
  · intro h
    unfold shouldExcludeResource
    rw [h]
  · exact validateLoop_filter_excluded matchBaseGlob matchGlob config policies resources []

/-- Witness for C4: without exclude config nothing is excluded. -/
theorem exclusion_predicate_witness :
    shouldExcludeResource noMatch noMatch {} scenario3Resource = false :=
  (exclusion_predicate_and_idempotence noMatch noMatch {} [] [] scenario3Resource).2.1 rfl

/-- Code-side framework filter agrees with the claim-side predicate. -/
theorem frameworkKeep_iff_specMatch (F : List String) (R : PolicyRule) :
    frameworkKeep (setFrameworkFilter F) R = true ↔ specFrameworkMatch F R := by
  unfold frameworkKeep setFrameworkFilter specFrameworkMatch
  cases hm : R.metadata with
  | none => simp [hm]
  | some m =>
    cases hf : m.frameworks with
    | none => simp [hm, hf]
    | some fws =>
      cases fws with
      | nil => simp [hm, hf]
      | cons f0 ftl =>
        simp only [hm, hf, Option.some.injEq, List.any_eq_true, List.mem_map,
          exists_eq_left]
        constructor
        · intro h
          have h2 := h
          rw [if_neg (by simp)] at h2
          rw [List.any_eq_true] at h2
          obtain ⟨f, hfmem, hany⟩ := h2
          rw [List.any_eq_true] at hany
          obtain ⟨t2, ht2, hsub⟩ := hany
          rw [List.mem_map] at ht2
          obtain ⟨t, htmem, rfl⟩ := ht2
          exact ⟨m, f0 :: ftl, rfl, hf, by simp, f, hfmem, t, htmem, hsub⟩
        · rintro ⟨m2, fws2, hm2, hf2, hne2, f, hfmem, t, htmem, hsub⟩
          subst hm2
          rw [hf] at hf2
          injection hf2 with hf3
          subst hf3
          rw [if_neg (by simp)]
          rw [List.any_eq_true]
          refine ⟨f, hfmem, ?_⟩
          rw [List.any_eq_true]
          exact ⟨asciiUpper t, List.mem_map.mpr ⟨t, htmem, rfl⟩, hsub⟩

/-- C1: under a non-empty framework filter (and no enabled/disabled
config lists), a rule of the merged catalog is retained in the
resolved list iff it satisfies the claimed predicate; consequently any
rule with absent or empty metadata.frameworks is dropped. -/
theorem framework_filter_retention
    (jsonParse : String → Option Value) (custom : List PolicyRule) (F : List String)
    (cfg : ValidationConfig) (R : PolicyRule)
    (hF : F ≠ []) (hcfg : cfg.policies = none) :
    (R ∈ loadPolicies (defaultPolicies jsonParse) custom (some (setFrameworkFilter F)) cfg ↔
      R ∈ mergedCatalog (defaultPolicies jsonParse) custom ∧ specFrameworkMatch F R) ∧
    ((R.metadata = none ∨
        ∃ m, R.metadata = some m ∧ (m.frameworks = none ∨ m.frameworks = some [])) →
      R ∉ loadPolicies (defaultPolicies jsonParse) custom (some (setFrameworkFilter F)) cfg) := by
  have hlen : 0 < (setFrameworkFilter F).length := by
    unfold setFrameworkFilter
    rw [List.length_map]
    exact List.length_pos.mpr hF
  have hload : loadPolicies (defaultPolicies jsonParse) custom (some (setFrameworkFilter F)) cfg =
      (mergedCatalog (defaultPolicies jsonParse) custom).filter
        (frameworkKeep (setFrameworkFilter F)) := by
    unfold loadPolicies
    rw [hcfg]
    simp [hlen]
  have hmem : ∀ S : PolicyRule,
      S ∈ loadPolicies (defaultPolicies jsonParse) custom (some (setFrameworkFilter F)) cfg ↔
        S ∈ mergedCatalog (defaultPolicies jsonParse) custom ∧ specFrameworkMatch F S := by
    intro S
    rw [hload, List.mem_filter]
    exact and_congr_right fun _ => frameworkKeep_iff_specMatch F S
  refine ⟨hmem R, ?_⟩
  intro habs hin
  obtain ⟨-, m, fws, hm, hf, hne, -⟩ := (hmem R).mp hin
  rcases habs with h0 | ⟨m2, hm2, h3⟩
  · rw [h0] at hm
    exact Option.noConfusion hm
  · rw [hm2] at hm
    cases hm
    rcases h3 with h3 | h3
    · rw [h3] at hf
      exact Option.noConfusion hf
    · rw [h3] at hf
      cases hf
      exact hne rfl

/-- Witness for C1: filtering by pci retains a custom rule whose
frameworks list carries PCI-DSS. -/
theorem framework_filter_retention_witness :
    customPciRule ∈ loadPolicies (defaultPolicies alwaysNone) [customPciRule]
      (some (setFrameworkFilter ["pci"])) {} := by
  have h := (framework_filter_retention alwaysNone [customPciRule] ["pci"] {} customPciRule
    (by simp) rfl).1
  apply h.mpr
  constructor
  · have hm : mergedCatalog (defaultPolicies alwaysNone) [customPciRule] =
        defaultPolicies alwaysNone ++ [customPciRule] := by rfl
    rw [hm]
    exact List.mem_append_right _ (by simp)
  · exact ⟨_, ["PCI-DSS"], rfl, rfl, by simp, "PCI-DSS", by simp, "pci", by simp, by rfl⟩

/-- One merge step changes the catalog length only when it appends. -/
theorem mergeStep_length (D : List String) (M : List PolicyRule) (c : PolicyRule) :
    (mergeStep D M c).length = M.length + (if D.contains c.id then 0 else 1) := by
  unfold mergeStep
  by_cases h : D.contains c.id = true
  · rw [if_pos h, if_pos h]
    cases hfi : findIndex (fun p => p.id == c.id) M with
    | some i => simp [List.length_set]
    | none => simp
  · rw [if_neg h, if_neg h]
    simp

/-- Folding the merge over the custom rules adds one slot per custom
id unknown to the defaults. -/
theorem foldl_mergeStep_length (D : List String) :
    ∀ (C M : List PolicyRule),
      (C.foldl (mergeStep D) M).length = M.length + C.countP (fun x => !D.contains x.id) := by
  intro C
  induction C with
  | nil => intro M; simp
  | cons c C ih =>
    intro M
    rw [List.foldl_cons, ih, mergeStep_length, List.countP_cons]
    by_cases h : D.contains c.id = true <;> simp [h] <;> omega

/-- With pairwise-distinct ids, findIndex locates exactly the position
holding the id. -/
theorem findIndex_of_nodup :
    ∀ (B : List PolicyRule) (cid : String) (i : Nat) (hi : i < B.length),
      (B.map PolicyRule.id).Nodup → cid = (B.get ⟨i, hi⟩).id →
      findIndex (fun p => p.id == cid) B = some i := by
  intro B
  induction B with
  | nil => intro cid i hi; exact absurd hi (by simp)
  | cons b rest ih =>
    intro cid i hi hnd hcid
    cases i with
    | zero =>
      unfold findIndex
      rw [if_pos]
      simp only [List.get] at hcid
      rw [hcid]
      simp
    | succ j =>
      have hj : j < rest.length := by simpa using hi
      have hcid2 : cid = (rest.get ⟨j, hj⟩).id := by simpa using hcid
      have hnd2 : (rest.map PolicyRule.id).Nodup := by
        simp only [List.map_cons, List.nodup_cons] at hnd
        exact hnd.2
      have hbne : b.id ≠ cid := by
        simp only [List.map_cons, List.nodup_cons] at hnd
        intro he
        apply hnd.1
        rw [he, hcid2]
        exact List.mem_map.mpr ⟨_, rest.get_mem j hj, rfl⟩
      unfold findIndex
      rw [if_neg (by simp [hbne])]
      rw [ih cid j hj hnd2 hcid2]
      rfl

/-- C3: mergePolicies keeps the catalog length except for custom rules
whose id is new, which are appended; a custom rule sharing the id of a
built-in at position i replaces exactly that entry in place, and a
custom rule with an unknown id is appended after the built-ins. -/
theorem mergePolicies_override_semantics (B C : List PolicyRule) (c : PolicyRule) :
    (mergePolicies B C).length =
        B.length + C.countP (fun x => !(B.map PolicyRule.id).contains x.id) ∧
    ((B.map PolicyRule.id).Nodup →
      ∀ i (hi : i < B.length), c.id = (B.get ⟨i, hi⟩).id →
        mergePolicies B [c] = B.set i c) ∧
    ((B.map PolicyRule.id).contains c.id = false → mergePolicies B [c] = B ++ [c]) := by
  refine ⟨?_, ?_, ?_⟩
  · unfold mergePolicies
    exact foldl_mergeStep_length _ C B
  · intro hnd i hi hcid
    have hcont : (B.map PolicyRule.id).contains c.id = true := by
      apply List.elem_iff.mpr
      rw [hcid]
      exact List.mem_map.mpr ⟨_, B.get_mem i hi, rfl⟩
    unfold mergePolicies
    rw [List.foldl_cons, List.foldl_nil]
    unfold mergeStep
    rw [if_pos hcont, findIndex_of_nodup B c.id i hi hnd hcid]
  · intro hcf
    unfold mergePolicies
    rw [List.foldl_cons, List.foldl_nil]
    unfold mergeStep
    rw [if_neg (by rw [hcf]; simp)]

/-- Witness for C3 on a concrete two-rule catalog: an override replaces
in place, a fresh id appends, and the length accounting holds. -/
theorem mergePolicies_override_witness :
    mergePolicies [sampleRuleA, sampleRuleB] [overrideRuleB] =
      [sampleRuleA, sampleRuleB].set 1 overrideRuleB ∧
    mergePolicies [sampleRuleA, sampleRuleB] [customPciRule] =
      [sampleRuleA, sampleRuleB] ++ [customPciRule] ∧
    (mergePolicies [sampleRuleA, sampleRuleB] [overrideRuleB]).length =
      2 + [overrideRuleB].countP
        (fun x => !([sampleRuleA, sampleRuleB].map PolicyRule.id).contains x.id) :=
  ⟨(mergePolicies_override_semantics [sampleRuleA, sampleRuleB] [overrideRuleB]
      overrideRuleB).2.1 (by decide) 1 (by decide) rfl,
   (mergePolicies_override_semantics [sampleRuleA, sampleRuleB] [customPciRule]
      customPciRule).2.2 (by decide),
   (mergePolicies_override_semantics [sampleRuleA, sampleRuleB] [overrideRuleB]
      overrideRuleB).1⟩

/-- Evaluating an appended policy list runs the first block and, when
it does not throw, continues into the second with the accumulated
violations. -/
theorem runPolicies_append (r : IacResource) :
    ∀ (P Q : List PolicyRule) (acc : List PolicyViolation),
      runPolicies (P ++ Q) r acc =
        match runPolicies P r acc with
        | .error e => .error e
        | .ok acc2 => runPolicies Q r acc2 := by
  intro P
  induction P with
  | nil => intro Q acc; rfl
  | cons p P ih =>
    intro Q acc
    rw [List.cons_append]
    cases hp : p.enabled with
    | false =>
      simp only [runPolicies, hp, Bool.not_false, if_true]
      exact ih Q acc
    | true =>
      simp only [runPolicies, hp, Bool.not_true, if_false]
      cases hev : p.evaluate r with
      | error e => rfl
      | ok o =>
        cases o with
        | some v => exact ih Q (acc ++ [v])
        | none => exact ih Q acc

/-- On a single non-excluded resource, validateResources is exactly
the inner policy run. -/
theorem validateResources_single (mb mg : String → String → Bool)
    (cfg : ValidationConfig) (pols : List PolicyRule) (r : IacResource)
    (hex : shouldExcludeResource mb mg cfg r = false) :
    validateResources mb mg cfg pols [r] = runPolicies pols r [] := by
  unfold validateResources validateLoop
  rw [if_neg (by rw [hex]; simp)]
  cases hres : runPolicies pols r [] with
  | error e => rfl
  | ok acc => rfl

/-- C10: two custom rules sharing a fresh id are both appended by the
merge, the merged catalog holds that id twice, and a validation run
over the extended catalog invokes both evaluates on a non-excluded
resource, appending both violations. -/
theorem duplicate_custom_ids_not_deduplicated
    (B : List PolicyRule) (c1 c2 : PolicyRule)
    (h1 : (B.map PolicyRule.id).contains c1.id = false) (h2 : c2.id = c1.id) :
    mergePolicies B [c1, c2] = B ++ [c1, c2] ∧
    ((mergePolicies B [c1, c2]).map PolicyRule.id).countP (fun x => x == c1.id) = 2 ∧
    ∀ (mb mg : String → String → Bool) (cfg : ValidationConfig) (P : List PolicyRule)
      (r : IacResource) (vs : List PolicyViolation) (v1 v2 : PolicyViolation),
      shouldExcludeResource mb mg cfg r = false →
      c1.enabled = true → c2.enabled = true →
      c1.evaluate r = .ok (some v1) → c2.evaluate r = .ok (some v2) →
      validateResources mb mg cfg P [r] = .ok vs →
      validateResources mb mg cfg (P ++ [c1, c2]) [r] = .ok (vs ++ [v1, v2]) := by
  have hno : ∀ x ∈ B, ¬x.id = c1.id := by
    intro x hx he
    have hmem : c1.id ∈ List.map PolicyRule.id B := List.mem_map.mpr ⟨x, hx, he⟩
    have hc : (List.map PolicyRule.id B).contains c1.id = true := List.elem_iff.mpr hmem
    rw [h1] at hc
    exact Bool.noConfusion hc
  have hmerge : mergePolicies B [c1, c2] = B ++ [c1, c2] := by
    unfold mergePolicies
    rw [List.foldl_cons, List.foldl_cons, List.foldl_nil]
    unfold mergeStep
    rw [if_neg (by simp [h2]; exact hno), if_neg (by simp; exact hno), List.append_assoc]
    rfl
  refine ⟨hmerge, ?_, ?_⟩
  · rw [hmerge, List.map_append, List.countP_append]
    have hB : (B.map PolicyRule.id).countP (fun x => x == c1.id) = 0 := by
      rw [List.countP_eq_zero]
      intro a ha hax
      rw [beq_iff_eq] at hax
      subst hax
      have hc : (List.map PolicyRule.id B).contains c1.id = true := List.elem_iff.mpr ha
      rw [h1] at hc
      exact Bool.noConfusion hc
    have hC : (([c1, c2] : List PolicyRule).map PolicyRule.id).countP
        (fun x => x == c1.id) = 2 := by
      simp [List.countP_cons, h2]
    rw [hB, hC]
  · intro mb mg cfg P r vs v1 v2 hex he1 he2 hev1 hev2 hrunP
    rw [validateResources_single mb mg cfg P r hex] at hrunP
    rw [validateResources_single mb mg cfg (P ++ [c1, c2]) r hex]
    rw [runPolicies_append r P [c1, c2] [], hrunP]
    simp only [runPolicies, he1, he2, Bool.not_true, if_false, hev1, hev2,
      List.append_assoc]
    rfl

/-- Witness for C10: a concrete pair of same-id custom rules whose
violations both appear for one resource. -/
theorem duplicate_custom_ids_witness :
    mergePolicies [] [dupRule1, dupRule2] = [dupRule1, dupRule2] ∧
    validateResources noMatch noMatch {} ([] ++ [dupRule1, dupRule2]) [dupResource] =
      .ok ([] ++ [dupViolation1, dupViolation2]) := by
  have h := duplicate_custom_ids_not_deduplicated [] dupRule1 dupRule2 (by decide) rfl
  exact ⟨h.1, h.2.2 noMatch noMatch {} [] dupResource [] dupViolation1 dupViolation2
    rfl rfl rfl rfl rfl rfl⟩

end GCE
